import Mathlib

/-!
Shallow embedding of the data-normalization and aggregation pipeline of the
sales-analytics dashboard (`src/app.py`), together with theorems settling the
frozen claims about it.

Modelling conventions:
* A pandas cell that may be missing/NaN/NaT is an `Option` value (`none` = NaN/NaT).
* Monetary/numeric values are `ℚ` (idealizing float64 arithmetic).
* A parsed calendar date is a `Date` record (year, month, day).
* Column names are `String`s; for the character-level header normalization we
  work on `List Char` (the `.data` of the string), since pandas'
  `.str.strip() / .str.upper() / .str.replace(' ', '_')` act per character.
* pandas reductions: `sum` of an empty column is `0`; `mean` of an empty column
  is NaN, embedded as `none`; `nunique`/`count` ignore null cells; `groupby`
  drops null keys and sorts group keys ascending.
-/

/-- Parsed calendar date, the result of `pd.to_datetime` on one cell
(time-of-day is irrelevant to every claim and omitted). -/
structure Date where
  year : Nat
  month : Nat
  day : Nat
deriving DecidableEq, Repr

/-- Lexicographic comparison of dates, mirroring comparison of
`datetime.date` values in `df['ORDER_DATE'].dt.date >= ...` (app.py:160-161). -/
def dateLeB (a b : Date) : Bool :=
  decide (a.year < b.year) ||
    (decide (a.year = b.year) &&
      (decide (a.month < b.month) ||
        (decide (a.month = b.month) && decide (a.day ≤ b.day))))

/-- One row of the canonical (post-load) sales dataframe.  Fields are the
canonical columns that the claims touch; cells that pandas may hold as
NaN/NaT are `Option`s, numeric columns are total after
`pd.to_numeric(..., errors='coerce').fillna(0)` (app.py:45-48). -/
structure SalesRow where
  order_date : Option Date
  total_values : ℚ
  total_commission : ℚ
  customer_id : Option String
  customer_name : Option String
  sale_representative : Option String
  status : Option String
  order_number : Option String
deriving DecidableEq, Repr

/-- A sales dataframe: the set of column names actually present in the
uploaded file (after normalization), plus the row data.  `app.py` branches
pervasively on `'COL' in df.columns`; the `cols` field models that. -/
structure SalesFrame where
  cols : List String
  rows : List SalesRow
deriving DecidableEq, Repr

/-- The canonical sales columns, all present in a canonical filtered dataset. -/
def canonicalSalesCols : List String :=
  ["ORDER_DATE", "CUSTOMER_ID", "CUSTOMER_NAME", "SALE_REPRESENTATIVE",
   "STATUS", "TOTAL_VALUES", "TOTAL_COMMISSION", "ORDER_NUMBER"]

/-- pandas `Series.sum()` over a numeric column: sum of the values, `0` when
the column is empty. -/
def seriesSum (xs : List ℚ) : ℚ := xs.sum

/-- pandas `Series.mean()` over a numeric column: NaN (here `none`) on an
empty column, otherwise the arithmetic mean. -/
def seriesMean (xs : List ℚ) : Option ℚ :=
  match xs with
  | [] => none
  | _ => some (xs.sum / xs.length)

/-- pandas `Series.nunique()` over a column of optional values: the number of
distinct non-null values (NaN cells are ignored). -/
def seriesNunique (xs : List (Option String)) : Nat :=
  (xs.filterMap id).dedup.length

/-- pandas `Series.count()` under `agg`: the number of non-null cells. -/
def seriesCount (xs : List (Option String)) : Nat :=
  (xs.filterMap id).length

/-- The metrics bundle returned by `calculate_metrics` (app.py:94-102).
`avg_order_value` is an `Option ℚ` because `df['TOTAL_VALUES'].mean()` is NaN
(`none`) on an empty dataframe; the `else 0` branches of the source are the
plain number `some 0` / `0`. -/
structure Metrics where
  total_revenue : ℚ
  total_orders : Nat
  total_commission : ℚ
  unique_customers : Nat
  avg_order_value : Option ℚ
  unique_reps : Nat
deriving DecidableEq, Repr

/-- Embedding of `calculate_metrics(df)` (app.py:94-102): each field guards on
column presence exactly as the source's `if 'COL' in df.columns else 0`. -/
def calculate_metrics (df : SalesFrame) : Metrics where
  total_revenue :=
    if "TOTAL_VALUES" ∈ df.cols then seriesSum (df.rows.map (·.total_values)) else 0
  total_orders := df.rows.length
  total_commission :=
    if "TOTAL_COMMISSION" ∈ df.cols then seriesSum (df.rows.map (·.total_commission)) else 0
  unique_customers :=
    if "CUSTOMER_ID" ∈ df.cols then seriesNunique (df.rows.map (·.customer_id)) else 0
  avg_order_value :=
    if "TOTAL_VALUES" ∈ df.cols then seriesMean (df.rows.map (·.total_values)) else some 0
  unique_reps :=
    if "SALE_REPRESENTATIVE" ∈ df.cols then seriesNunique (df.rows.map (·.sale_representative)) else 0

/-- The empty filtered canonical dataset: all canonical columns present,
zero rows (every row excluded by the sidebar filters). -/
def emptyCanonicalFrame : SalesFrame :=
  { cols := canonicalSalesCols, rows := [] }

/-- Claim C1 (counterexample): on the zero-row canonical dataset the
summary-metrics bundle does NOT satisfy the claimed
`revenue=0 ∧ orders=0 ∧ customers=0 ∧ avg_order=0`: the average order value is
`df['TOTAL_VALUES'].mean()` on an empty column, which is NaN (`none`), not 0. -/
theorem C1_empty_metrics_claim_false :
    ¬ ((calculate_metrics emptyCanonicalFrame).total_revenue = 0 ∧
       (calculate_metrics emptyCanonicalFrame).total_orders = 0 ∧
       (calculate_metrics emptyCanonicalFrame).unique_customers = 0 ∧
       (calculate_metrics emptyCanonicalFrame).avg_order_value = some 0) := by
  intro h
  have h4 := h.2.2.2
  simp [calculate_metrics, emptyCanonicalFrame, canonicalSalesCols, seriesMean] at h4

/-- Claim C1 (amended): on the zero-row filtered canonical dataset the
summary-metrics computation returns revenue = 0, order count = 0, unique
customers = 0 and raises no exception, but the average order value is NaN
(the mean of an empty column), not 0. -/
theorem C1_empty_metrics_amended :
    calculate_metrics emptyCanonicalFrame =
      { total_revenue := 0, total_orders := 0, total_commission := 0,
        unique_customers := 0, avg_order_value := none, unique_reps := 0 } := by
  simp [calculate_metrics, emptyCanonicalFrame, canonicalSalesCols, seriesMean,
    seriesSum, seriesNunique]

/-- `df['ORDER_DATE'].dt.to_period('M').astype(str)` applied to one cell
(app.py:51).  `astype(str)` renders every period as a string; a NaT period
renders as the literal string `"NaT"`, so the resulting cell is never null. -/
def yearMonthCell (d : Option Date) : Option String :=
  match d with
  | some dd => some (toString dd.year ++ "-" ++
      (if dd.month < 10 then "0" ++ toString dd.month else toString dd.month))
  | none => some "NaT"

/-- `df['ORDER_DATE'].dt.year` applied to one cell (app.py:52): NaN (`none`)
on a NaT date. -/
def yearCell (d : Option Date) : Option Nat := d.map (·.year)

/-- `df['ORDER_DATE'].dt.month` applied to one cell (app.py:53): NaN (`none`)
on a NaT date. -/
def monthCell (d : Option Date) : Option Nat := d.map (·.month)

/-- Claim C2 (counterexample): for a row whose `order_date` is null, it is NOT
the case that all three derived calendar fields are null: `YEAR_MONTH` is the
literal string `"NaT"` (because of `astype(str)`), a present value. -/
theorem C2_derived_fields_claim_false :
    ¬ (yearMonthCell none = none ∧ yearCell none = none ∧ monthCell none = none) := by
  intro h
  exact absurd h.1 (by simp [yearMonthCell])

/-- Claim C2 (amended): for a row whose `order_date` is null, the derived
`year` and `month` fields are null, but the derived `year_month` field is the
literal string `"NaT"` rather than null. -/
theorem C2_derived_fields_amended :
    yearCell none = none ∧ monthCell none = none ∧ yearMonthCell none = some "NaT" := by
  refine ⟨rfl, rfl, rfl⟩

/-- One row of the raw SKU/line-item table, as parsed by
`pd.to_numeric(..., errors='coerce')` but before `.fillna(0)`: a cell is
`none` when the source cell was missing or unparseable as a number
(app.py:80-82). -/
structure SkuRow where
  quantity : Option ℚ
  unit_price : Option ℚ
  line_total : Option ℚ
deriving DecidableEq, Repr

/-- The `errors='coerce'` + `.fillna(0)` numeric coercion of one cell
(app.py:82): unparseable/missing becomes `0`, a parsed number is kept. -/
def coerceNumCell (c : Option ℚ) : ℚ := c.getD 0

/-- Embedding of the `LINE_TOTAL` computation of `load_sku_data`
(app.py:80-86) for a table that has the `QUANTITY`, `UNIT_PRICE` and
`LINE_TOTAL` columns: coerce the three columns to numbers, then, when the
coerced `LINE_TOTAL` column sums to exactly zero, replace it wholesale by
`QUANTITY * UNIT_PRICE`; otherwise keep the coerced source values.  Returns
the resulting `LINE_TOTAL` column. -/
def skuLineTotals (rows : List SkuRow) : List ℚ :=
  let lt := rows.map (fun r => coerceNumCell r.line_total)
  if lt.sum = 0 then
    rows.map (fun r => coerceNumCell r.quantity * coerceNumCell r.unit_price)
  else lt

/-- Claim C3: after numeric coercion, if the `LINE_TOTAL` column sums to
exactly zero the output `LINE_TOTAL` equals `QUANTITY × UNIT_PRICE` row-wise;
if it sums to a nonzero value the output equals the (coerced) source values
unchanged, even when individual rows are inconsistent with quantity × price. -/
theorem C3_line_total_fallback (rows : List SkuRow) :
    ((rows.map (fun r => coerceNumCell r.line_total)).sum = 0 →
      skuLineTotals rows =
        rows.map (fun r => coerceNumCell r.quantity * coerceNumCell r.unit_price)) ∧
    ((rows.map (fun r => coerceNumCell r.line_total)).sum ≠ 0 →
      skuLineTotals rows = rows.map (fun r => coerceNumCell r.line_total)) := by
  constructor
  · intro h
    simp [skuLineTotals, h]
  · intro h
    simp [skuLineTotals, h]

/-- A SKU table whose raw `LINE_TOTAL` values cancel to a zero sum
(rows `(2, 3, 5)` and `(4, 5, -5)`). -/
def skuZeroSumTable : List SkuRow :=
  [⟨some 2, some 3, some 5⟩, ⟨some 4, some 5, some (-5)⟩]

/-- A SKU table whose raw `LINE_TOTAL` sums to a nonzero value, with the
second row inconsistent with quantity × price. -/
def skuNonzeroSumTable : List SkuRow :=
  [⟨some 2, some 3, some 6⟩, ⟨some 4, some 5, some 1⟩]

/-- Witness for C3: on the cancelling table the fallback fires and the output
is `QUANTITY × UNIT_PRICE` row-wise; on the nonzero-sum table the inconsistent
source values are kept unchanged. -/
theorem C3_line_total_fallback_witness :
    skuLineTotals skuZeroSumTable = [6, 20] ∧
    skuLineTotals skuNonzeroSumTable = [6, 1] := by
  constructor
  · have h := (C3_line_total_fallback skuZeroSumTable).1 (by
      norm_num [skuZeroSumTable, coerceNumCell])
    rw [h]
    norm_num [skuZeroSumTable, coerceNumCell]
  · have h := (C3_line_total_fallback skuNonzeroSumTable).2 (by
      norm_num [skuNonzeroSumTable, coerceNumCell])
    rw [h]
    norm_num [skuNonzeroSumTable, coerceNumCell]

/-- Claim C10: because the numeric coercion (unparseable → 0) runs before the
zero-sum test, a SKU table whose raw `LINE_TOTAL` cells are all present but
all unparseable (all coerced to `none`→0) triggers the table-wide fallback:
the output `LINE_TOTAL` is `QUANTITY × UNIT_PRICE` for every row even though
the source column was populated. -/
theorem C10_unparseable_column_triggers_fallback (rows : List SkuRow)
    (h : ∀ r ∈ rows, r.line_total = none) :
    skuLineTotals rows =
      rows.map (fun r => coerceNumCell r.quantity * coerceNumCell r.unit_price) := by
  have hsum : (rows.map (fun r => coerceNumCell r.line_total)).sum = 0 := by
    apply List.sum_eq_zero
    intro x hx
    rcases List.mem_map.mp hx with ⟨r, hr, rfl⟩
    simp [coerceNumCell, h r hr]
  simp [skuLineTotals, hsum]

/-- Witness for C10: a two-row table with unparseable `LINE_TOTAL` cells and
parseable quantities/prices gets `QUANTITY × UNIT_PRICE` as its output column. -/
theorem C10_unparseable_column_triggers_fallback_witness :
    skuLineTotals [⟨some 2, some 3, none⟩, ⟨some 7, some 10, none⟩] = [6, 70] := by
  have h := C10_unparseable_column_triggers_fallback
    [⟨some 2, some 3, none⟩, ⟨some 7, some 10, none⟩] (by
      intro r hr
      simp only [List.mem_cons, List.mem_singleton, List.not_mem_nil] at hr
      rcases hr with rfl | rfl | h
      · rfl
      · rfl
      · cases h
      )
  rw [h]
  norm_num [coerceNumCell]

/-- The date-candidate priority list of `load_sales_data` (app.py:38). -/
def dateCandidates : List String := ["ORDER_DATE", "DATE", "CREATION_DATE"]

/-- Embedding of the date-column selection loop of `load_sales_data`
(app.py:38-43).  The raw table is an association list from column name to the
raw textual cells of that column; `parse` is `pd.to_datetime(..,
errors='coerce')` on one cell.  The loop takes the first candidate present in
the columns, parses it, assigns it to `ORDER_DATE` and breaks, ignoring later
candidates; the function returns the resulting `ORDER_DATE` column (`none`
when no candidate column exists). -/
def pickOrderDate (parse : String → Option Date)
    (cols : List (String × List String)) : Option (List (Option Date)) :=
  match dateCandidates.find? (fun c => (cols.map Prod.fst).contains c) with
  | some c => (cols.lookup c).map (fun raw => raw.map parse)
  | none => none

/-- Helper: a successful association-list lookup means the key occurs among
the column names. -/
theorem lookup_mem_keys {c : String} {cols : List (String × List String)}
    {v : List String} (h : cols.lookup c = some v) :
    c ∈ cols.map Prod.fst := by
  induction cols with
  | nil => simp [List.lookup] at h
  | cons p t ih =>
    rw [List.lookup] at h
    cases hc : c == p.1 with
    | true =>
      simp only [List.map_cons, List.mem_cons]
      exact Or.inl (beq_iff_eq.mp hc)
    | false =>
      rw [hc] at h
      simp only [List.map_cons, List.mem_cons]
      exact Or.inr (ih h)

/-- Claim C4: the date candidates are checked in the fixed priority order
`ORDER_DATE`, `DATE`, `CREATION_DATE`, and the first present column wins,
later candidates being ignored even when present: whenever `ORDER_DATE` is
present the result is the parsed `ORDER_DATE` column; when `ORDER_DATE` is
absent and `DATE` is present the result is the parsed `DATE` column (even if
`CREATION_DATE` is also present); when only `CREATION_DATE` is present the
result is its parse; when no candidate is present there is no `order_date`
column at all. -/
theorem C4_date_candidate_priority (parse : String → Option Date)
    (cols : List (String × List String)) (vals : List String) :
    (cols.lookup "ORDER_DATE" = some vals →
      pickOrderDate parse cols = some (vals.map parse)) ∧
    ("ORDER_DATE" ∉ cols.map Prod.fst →
      cols.lookup "DATE" = some vals →
      pickOrderDate parse cols = some (vals.map parse)) ∧
    ("ORDER_DATE" ∉ cols.map Prod.fst → "DATE" ∉ cols.map Prod.fst →
      cols.lookup "CREATION_DATE" = some vals →
      pickOrderDate parse cols = some (vals.map parse)) ∧
    ("ORDER_DATE" ∉ cols.map Prod.fst → "DATE" ∉ cols.map Prod.fst →
      "CREATION_DATE" ∉ cols.map Prod.fst →
      pickOrderDate parse cols = none) := by
  refine ⟨fun h => ?_, fun h1 h => ?_, fun h1 h2 h => ?_, fun h1 h2 h3 => ?_⟩
  · have hmem := lookup_mem_keys h
    have hfind : dateCandidates.find? (fun c => (cols.map Prod.fst).contains c) =
        some "ORDER_DATE" := by
      simp [dateCandidates, List.find?, hmem]
    unfold pickOrderDate
    rw [hfind]
    simp [h]
  · have hmem := lookup_mem_keys h
    have hfind : dateCandidates.find? (fun c => (cols.map Prod.fst).contains c) =
        some "DATE" := by
      simp [dateCandidates, List.find?, h1, hmem]
    unfold pickOrderDate
    rw [hfind]
    simp [h]
  · have hmem := lookup_mem_keys h
    have hfind : dateCandidates.find? (fun c => (cols.map Prod.fst).contains c) =
        some "CREATION_DATE" := by
      simp [dateCandidates, List.find?, h1, h2, hmem]
    unfold pickOrderDate
    rw [hfind]
    simp [h]
  · have hfind : dateCandidates.find? (fun c => (cols.map Prod.fst).contains c) =
        none := by
      simp [dateCandidates, List.find?, h1, h2, h3]
    unfold pickOrderDate
    rw [hfind]

/-- A fixed example parse function (the claims only constrain which column is
parsed, not the date grammar): parses the two literals used in the witness. -/
def exampleParse (s : String) : Option Date :=
  if s = "2024-01-05" then some ⟨2024, 1, 5⟩
  else if s = "2023-12-31" then some ⟨2023, 12, 31⟩
  else none

/-- Witness for C4, one concrete table per priority case: with both
`ORDER_DATE` and `DATE` populated with different values, `ORDER_DATE` wins;
without `ORDER_DATE` but with both `DATE` and `CREATION_DATE` populated with
different values, `DATE` wins; with only `CREATION_DATE`, it is used; with no
candidate at all, no `order_date` is produced. -/
theorem C4_date_candidate_priority_witness :
    pickOrderDate exampleParse
      [("ORDER_DATE", ["2024-01-05"]), ("DATE", ["2023-12-31"])] =
      some [some ⟨2024, 1, 5⟩] ∧
    pickOrderDate exampleParse
      [("DATE", ["2023-12-31"]), ("CREATION_DATE", ["2024-01-05"])] =
      some [some ⟨2023, 12, 31⟩] ∧
    pickOrderDate exampleParse [("CREATION_DATE", ["2024-01-05"])] =
      some [some ⟨2024, 1, 5⟩] ∧
    pickOrderDate exampleParse [("STATUS", ["draft"])] = none := by
  refine ⟨?_, ?_, ?_, ?_⟩
  · have h := (C4_date_candidate_priority exampleParse
      [("ORDER_DATE", ["2024-01-05"]), ("DATE", ["2023-12-31"])]
      ["2024-01-05"]).1 rfl
    rw [h]
    rfl
  · have h := (C4_date_candidate_priority exampleParse
      [("DATE", ["2023-12-31"]), ("CREATION_DATE", ["2024-01-05"])]
      ["2023-12-31"]).2.1 (by decide) rfl
    rw [h]
    rfl
  · have h := (C4_date_candidate_priority exampleParse
      [("CREATION_DATE", ["2024-01-05"])]
      ["2024-01-05"]).2.2.1 (by decide) (by decide) rfl
    rw [h]
    rfl
  · exact (C4_date_candidate_priority exampleParse [("STATUS", ["draft"])]
      []).2.2.2 (by decide) (by decide) (by decide)

/-- The fixed raw→canonical rename table of `load_sku_data` (app.py:66-74). -/
def skuRenameMapping : List (String × String) :=
  [("MATRIX_ORDER_ID", "ORDER_ID"),
   ("CREATION_DATE", "ORDER_DATE"),
   ("ORDER_LINES/PRODUCT/REFERENCE", "SKU"),
   ("ORDER_LINES/PRODUCT/NAME", "PRODUCT_NAME"),
   ("ORDER_LINES/QUANTITY", "QUANTITY"),
   ("ORDER_LINES/UNIT_PRICE", "UNIT_PRICE"),
   ("ORDER_LINES/TOTAL", "LINE_TOTAL")]

/-- The canonical target names of the rename table. -/
def skuCanonicalNames : List String :=
  ["ORDER_ID", "ORDER_DATE", "SKU", "PRODUCT_NAME", "QUANTITY", "UNIT_PRICE",
   "LINE_TOTAL"]

/-- One `df.rename(columns={old: new})` step guarded by `if old in df.columns`
(app.py:76-78): when a column named `old` exists, every column named `old` is
relabelled `new`; otherwise the table is unchanged.  A column is a (name,
payload) pair; the payload stands for the column's data and is untouched. -/
def renameStep (old new : String) (cols : List (String × Nat)) :
    List (String × Nat) :=
  if old ∈ cols.map Prod.fst then
    cols.map (fun c => if c.1 = old then (new, c.2) else c)
  else cols

/-- The rename loop of `load_sku_data` (app.py:76-78): fold the rename table
over the column list in its fixed order. -/
def applySkuRename (cols : List (String × Nat)) : List (String × Nat) :=
  skuRenameMapping.foldl (fun cs p => renameStep p.1 p.2 cs) cols

/-- Helper: a fold of rename steps whose `old` names all differ from `n`
leaves a column named `n` in place, with its payload. -/
theorem renameFold_preserves (m : List (String × String)) (n : String)
    (hn : ∀ p ∈ m, p.1 ≠ n) :
    ∀ (cols : List (String × Nat)) (i : Nat) (v : Nat),
      cols[i]? = some (n, v) →
      (m.foldl (fun cs p => renameStep p.1 p.2 cs) cols)[i]? = some (n, v) := by
  induction m with
  | nil => intro cols i v h; simpa using h
  | cons p t ih =>
    intro cols i v h
    have hpn : p.1 ≠ n := hn p (List.mem_cons_self p t)
    have hstep : (renameStep p.1 p.2 cols)[i]? = some (n, v) := by
      unfold renameStep
      by_cases hmem : p.1 ∈ cols.map Prod.fst
      · rw [if_pos hmem, List.getElem?_map, h]
        simp [hpn.symm]
      · rw [if_neg hmem]; exact h
    rw [List.foldl_cons]
    exact ih (fun q hq => hn q (List.mem_cons_of_mem p hq)) _ i v hstep

/-- Claim C6: the SKU rename step never touches a column that already bears a
canonical name: for every column list, every position holding a column whose
name is one of the canonical targets holds exactly the same (name, data)
column after the rename loop — even when another column bearing the raw name
mapped to that same canonical target is present (that other column is
additionally renamed, which cannot disturb this one). -/
theorem C6_rename_preserves_canonical (cols : List (String × Nat)) (i : Nat)
    (n : String) (v : Nat) (hcanon : n ∈ skuCanonicalNames)
    (h : cols[i]? = some (n, v)) :
    (applySkuRename cols)[i]? = some (n, v) := by
  apply renameFold_preserves skuRenameMapping n _ cols i v h
  intro p hp
  simp only [skuCanonicalNames, List.mem_cons, List.not_mem_nil, or_false]
    at hcanon
  fin_cases hp <;>
    rcases hcanon with rfl | rfl | rfl | rfl | rfl | rfl | rfl <;> decide

/-- Witness for C6: a table that already has an `ORDER_DATE` column and also a
raw `CREATION_DATE` column (whose mapped target is that same `ORDER_DATE`):
the canonical column at position 0 is untouched by the rename loop. -/
theorem C6_rename_preserves_canonical_witness :
    (applySkuRename [("ORDER_DATE", 0), ("CREATION_DATE", 1)])[0]? =
      some ("ORDER_DATE", 0) :=
  C6_rename_preserves_canonical [("ORDER_DATE", 0), ("CREATION_DATE", 1)] 0
    "ORDER_DATE" 0 (by decide) rfl

/-- The date-range predicate of the sidebar filter (app.py:160-161):
`(df['ORDER_DATE'].dt.date >= start) & (df['ORDER_DATE'].dt.date <= end)`.
A NaT date compares false on both sides, so a null-date row is excluded. -/
def dateInRange (s e : Date) (r : SalesRow) : Bool :=
  match r.order_date with
  | some d => dateLeB s d && dateLeB d e
  | none => false

/-- The representative-membership predicate of the sidebar filter
(app.py:168): `df['SALE_REPRESENTATIVE'].isin(selected_reps)`.  A NaN cell is
never a member of a list of strings. -/
def repSelected (sel : List String) (r : SalesRow) : Bool :=
  match r.sale_representative with
  | some x => sel.contains x
  | none => false

/-- Date-range filtering of the canonical dataset (app.py:160-161). -/
def filterByDate (s e : Date) (rows : List SalesRow) : List SalesRow :=
  rows.filter (dateInRange s e)

/-- Representative filtering of the canonical dataset (app.py:168). -/
def filterByRep (sel : List String) (rows : List SalesRow) : List SalesRow :=
  rows.filter (repSelected sel)

/-- Claim C9: the date-range predicate and the representative-membership
predicate commute: filtering by date and then by representative yields the
same result set as filtering in the reverse order, for every canonical sales
dataset, date interval and representative selection. -/
theorem C9_filter_commutes (s e : Date) (sel : List String)
    (rows : List SalesRow) :
    filterByRep sel (filterByDate s e rows) =
      filterByDate s e (filterByRep sel rows) := by
  unfold filterByRep filterByDate
  rw [List.filter_filter, List.filter_filter]
  exact List.filter_congr (fun r _ => Bool.and_comm _ _)

/-- Lexicographic code-point comparison of character lists, mirroring Python
string comparison used when pandas `groupby` sorts its group keys. -/
def charsLeB : List Char → List Char → Bool
  | [], _ => true
  | _ :: _, [] => false
  | a :: as, b :: bs =>
    if a.toNat < b.toNat then true
    else if b.toNat < a.toNat then false
    else charsLeB as bs

/-- Python-style lexicographic string comparison (on the underlying chars). -/
def strLeB (a b : String) : Bool := charsLeB a.data b.data

instance : DecidableRel (fun a b : String => strLeB a b = true) :=
  fun a b => inferInstanceAs (Decidable (strLeB a b = true))

/-- Distinct values of a key column, dropping duplicates (the set of group
keys formed by `groupby`; the subsequent ascending key sort fixes the order,
so which duplicate survives is irrelevant). -/
def dedupKeys : List String → List String
  | [] => []
  | x :: xs => let r := dedupKeys xs; if r.contains x then r else x :: r

/-- One row of the `rep_perf` aggregate table (app.py:231-238): group key and
the four aggregated columns `TOTAL_VALUES` sum, `ORDER_NUMBER` count,
`CUSTOMER_ID` nunique, `TOTAL_COMMISSION` sum. -/
structure RepPerf where
  rep : String
  revenue : ℚ
  orders : Nat
  customers : Nat
  commission : ℚ
deriving DecidableEq, Repr

/-- The descending-revenue order used by
`.sort_values('TOTAL_VALUES', ascending=False)` (app.py:236). -/
def revDescRel (x y : RepPerf) : Prop := y.revenue ≤ x.revenue

instance : DecidableRel revDescRel :=
  fun x y => inferInstanceAs (Decidable (y.revenue ≤ x.revenue))

instance : IsTotal RepPerf revDescRel := ⟨fun a b => le_total b.revenue a.revenue⟩

instance : IsTrans RepPerf revDescRel := ⟨fun _ _ _ h1 h2 => le_trans h2 h1⟩

/-- The group keys of `df.groupby('SALE_REPRESENTATIVE')` (app.py:231): the
distinct non-null representative values, sorted ascending (pandas `groupby`
drops null keys and sorts keys by default). -/
def repGroupKeys (rows : List SalesRow) : List String :=
  List.insertionSort (fun a b => strLeB a b = true)
    (dedupKeys (rows.filterMap (·.sale_representative)))

/-- The aggregate row for one representative group (app.py:231-235):
`TOTAL_VALUES` and `TOTAL_COMMISSION` summed, `ORDER_NUMBER` counted
(non-null cells), `CUSTOMER_ID` distinct-counted. -/
def repAggregate (rows : List SalesRow) (k : String) : RepPerf :=
  let g := rows.filter (fun r => decide (r.sale_representative = some k))
  { rep := k
  , revenue := seriesSum (g.map (·.total_values))
  , orders := seriesCount (g.map (·.order_number))
  , customers := seriesNunique (g.map (·.customer_id))
  , commission := seriesSum (g.map (·.total_commission)) }

/-- The representative ranking of the Sales Reps tab (app.py:231-236): group
by representative, aggregate, sort descending by summed revenue, truncate to
the top N. -/
def rep_perf (rows : List SalesRow) (topN : Nat) : List RepPerf :=
  (List.insertionSort revDescRel
    ((repGroupKeys rows).map (repAggregate rows))).take topN

/-- The columns whose aggregations the `rep_perf` `agg` dict demands
(app.py:231-235). -/
def repAggCols : List String :=
  ["TOTAL_VALUES", "ORDER_NUMBER", "CUSTOMER_ID", "TOTAL_COMMISSION"]

/-- The Sales Reps tab as guarded in `main` (app.py:228-236): the whole
feature is skipped (`none`) when `SALE_REPRESENTATIVE` is absent; when it is
present, `df.groupby(...).agg({...})` demands the four aggregated columns and
raises `KeyError` if any of them is missing — only that guard exists in the
source. -/
def repRankingTab (df : SalesFrame) (topN : Nat) :
    Except String (Option (List RepPerf)) :=
  if "SALE_REPRESENTATIVE" ∈ df.cols then
    if repAggCols.all (fun c => df.cols.contains c) then
      Except.ok (some (rep_perf df.rows topN))
    else Except.error "KeyError"
  else Except.ok none

/-- A dataset that has `SALE_REPRESENTATIVE` (and `TOTAL_VALUES`) but lacks
`TOTAL_COMMISSION`, `ORDER_NUMBER` and `CUSTOMER_ID`. -/
def frameMissingAggCols : SalesFrame :=
  { cols := ["SALE_REPRESENTATIVE", "TOTAL_VALUES"], rows := [] }

/-- Claim C7 (counterexample): on a dataset that has `SALE_REPRESENTATIVE`
but lacks `ORDER_NUMBER`, `CUSTOMER_ID` and `TOTAL_COMMISSION`, the
representative ranking does raise (a pandas `KeyError` from the `agg` dict);
it is not silently skipped. -/
theorem C7_missing_column_claim_false :
    repRankingTab frameMissingAggCols 10 = Except.error "KeyError" := by
  rfl

/-- Claim C7 (amended): the representative ranking is skipped silently only
when the grouping column `SALE_REPRESENTATIVE` itself is absent; when it is
present the aggregation demands `TOTAL_VALUES`, `ORDER_NUMBER`, `CUSTOMER_ID`
and `TOTAL_COMMISSION`, computing the ranking when all four are present and
raising a `KeyError` when any is missing. -/
theorem C7_missing_column_amended (df : SalesFrame) (topN : Nat) :
    ("SALE_REPRESENTATIVE" ∉ df.cols →
      repRankingTab df topN = Except.ok none) ∧
    ("SALE_REPRESENTATIVE" ∈ df.cols →
      repAggCols.all (fun c => df.cols.contains c) = true →
      repRankingTab df topN = Except.ok (some (rep_perf df.rows topN))) ∧
    ("SALE_REPRESENTATIVE" ∈ df.cols →
      repAggCols.all (fun c => df.cols.contains c) = false →
      repRankingTab df topN = Except.error "KeyError") := by
  refine ⟨fun h => ?_, fun h1 h2 => ?_, fun h1 h2 => ?_⟩
  · simp [repRankingTab, h]
  · unfold repRankingTab
    rw [if_pos h1, if_pos h2]
  · unfold repRankingTab
    rw [if_pos h1, if_neg (by rw [h2]; exact Bool.false_ne_true)]

/-- Witness for C7 (amended): the three guard outcomes, each at a concrete
dataset: no rep column → skipped; all columns → ranking computed; rep column
without the aggregated columns → `KeyError`. -/
theorem C7_missing_column_amended_witness :
    repRankingTab ⟨["STATUS"], []⟩ 10 = Except.ok none ∧
    repRankingTab ⟨"SALE_REPRESENTATIVE" :: repAggCols, []⟩ 10 =
      Except.ok (some (rep_perf [] 10)) ∧
    repRankingTab frameMissingAggCols 10 = Except.error "KeyError" :=
  ⟨(C7_missing_column_amended ⟨["STATUS"], []⟩ 10).1 (by decide),
   (C7_missing_column_amended ⟨"SALE_REPRESENTATIVE" :: repAggCols, []⟩ 10).2.1
     (by decide) (by decide),
   (C7_missing_column_amended frameMissingAggCols 10).2.2 (by decide) (by decide)⟩

/-- A canonical sales row with the given representative, value, order number
and customer id (other fields null/zero). -/
def mkSalesRow (rep : String) (v : ℚ) (ord cust : String) : SalesRow :=
  { order_date := none, total_values := v, total_commission := 0,
    customer_id := some cust, customer_name := none,
    sale_representative := some rep, status := none,
    order_number := some ord }

/-- The dataset of the ranking-determinism example: revenues
A ↦ 100, B ↦ 300, C ↦ 200, one order each. -/
def rankingExampleRows : List SalesRow :=
  [mkSalesRow "A" 100 "o1" "c1",
   mkSalesRow "B" 300 "o2" "c2",
   mkSalesRow "C" 200 "o3" "c3"]

/-- Claim C8: the representative ranking groups rows by representative, sums
`total_value` and `total_commission`, counts orders, counts distinct
customers, sorts descending by summed revenue and truncates to the top N:
for every dataset and N the output is descending in revenue and has at most N
rows, and on the dataset with revenues {A:100, B:300, C:200} with N = 2 it is
exactly [B, C] in that order. -/
theorem C8_rep_ranking :
    (∀ (rows : List SalesRow) (topN : Nat),
      List.Sorted revDescRel (rep_perf rows topN) ∧
      (rep_perf rows topN).length ≤ topN) ∧
    rep_perf rankingExampleRows 2 =
      [{ rep := "B", revenue := 300, orders := 1, customers := 1, commission := 0 },
       { rep := "C", revenue := 200, orders := 1, customers := 1, commission := 0 }] := by
  constructor
  · intro rows topN
    constructor
    · exact List.Pairwise.sublist (List.take_sublist _ _)
        (List.sorted_insertionSort revDescRel _)
    · simp [rep_perf, List.length_take]
  · have hkeys : repGroupKeys rankingExampleRows = ["A", "B", "C"] := by decide
    have hA : repAggregate rankingExampleRows "A" =
        { rep := "A", revenue := 100, orders := 1, customers := 1, commission := 0 } := by
      simp [repAggregate, rankingExampleRows, mkSalesRow, seriesSum, seriesCount,
        seriesNunique, dedupKeys, List.filter]
    have hB : repAggregate rankingExampleRows "B" =
        { rep := "B", revenue := 300, orders := 1, customers := 1, commission := 0 } := by
      simp [repAggregate, rankingExampleRows, mkSalesRow, seriesSum, seriesCount,
        seriesNunique, dedupKeys, List.filter]
    have hC : repAggregate rankingExampleRows "C" =
        { rep := "C", revenue := 200, orders := 1, customers := 1, commission := 0 } := by
      simp [repAggregate, rankingExampleRows, mkSalesRow, seriesSum, seriesCount,
        seriesNunique, dedupKeys, List.filter]
    unfold rep_perf
    rw [hkeys, List.map_cons, List.map_cons, List.map_cons, List.map_nil,
      hA, hB, hC]
    norm_num [List.insertionSort, List.orderedInsert, revDescRel]

/-- Whitespace test on one character, as stripped by Python `str.strip()`
(space, tab, newline, carriage return). -/
def isSpaceCh (c : Char) : Bool :=
  decide (c.toNat = 32 ∨ c.toNat = 9 ∨ c.toNat = 10 ∨ c.toNat = 13)

/-- Remove trailing whitespace characters (the right half of `str.strip()`). -/
def dropTrail (l : List Char) : List Char :=
  l.foldr (fun c acc => if acc.isEmpty && isSpaceCh c then [] else c :: acc) []

/-- Python `str.strip()` on the characters of a header: drop leading then
trailing whitespace (app.py:36 and app.py:64, `.str.strip()`). -/
def trimChars (l : List Char) : List Char :=
  dropTrail (l.dropWhile isSpaceCh)

/-- One character of `.str.replace(' ', '_')` (app.py:36): a space becomes an
underscore, everything else is kept. -/
def replaceSpaceCh (c : Char) : Char := if c = ' ' then '_' else c

/-- One character of the sales header normalization after the strip:
upper-case it (`.str.upper()`), then replace a space by an underscore
(`.str.replace(' ', '_')`). -/
def salesCharMap (c : Char) : Char := replaceSpaceCh (Char.toUpper c)

/-- The sales-table header normalization (app.py:36):
`.str.strip().str.upper().str.replace(' ', '_')` — strip, then the two
character-wise passes (fused into one map; see
`normalizeSalesCol_eq_staged`). -/
def normalizeSalesCol (l : List Char) : List Char :=
  (trimChars l).map salesCharMap

/-- The SKU-table header normalization (app.py:64): `.str.strip().str.upper()`
only — no space replacement. -/
def normalizeSkuCol (l : List Char) : List Char :=
  (trimChars l).map Char.toUpper

/-- The fused sales normalization equals the staged
strip-then-upper-then-replace form of the source. -/
theorem normalizeSalesCol_eq_staged (l : List Char) :
    normalizeSalesCol l = ((trimChars l).map Char.toUpper).map replaceSpaceCh := by
  unfold normalizeSalesCol salesCharMap
  rw [List.map_map]
  rfl

/-- Helper: `Char.ofNat` of a small code point has that code point. -/
theorem toNat_charOfNat_of_le (n : Nat) (h : n ≤ 90) : (Char.ofNat n).toNat = n := by
  have hv : n.isValidChar := Or.inl (by omega)
  rw [Char.ofNat, dif_pos hv, Char.ofNatAux]
  simp [Char.toNat, UInt32.toNat, BitVec.toNat_ofNatLt]

/-- Helper: characters with equal code points are equal. -/
theorem char_toNat_inj {a b : Char} (h : a.toNat = b.toNat) : a = b := by
  apply Char.eq_of_val_eq
  apply UInt32.eq_of_toBitVec_eq
  exact BitVec.eq_of_toNat_eq h

/-- Code-point description of `Char.toUpper`: ASCII lower-case letters move
down by 32, everything else is unchanged. -/
theorem toUpper_toNat (c : Char) :
    (Char.toUpper c).toNat =
      if c.toNat ≥ 97 ∧ c.toNat ≤ 122 then c.toNat - 32 else c.toNat := by
  simp only [Char.toUpper]
  split_ifs with h
  · exact toNat_charOfNat_of_le _ (by omega)
  · rfl

/-- `Char.toUpper` is idempotent. -/
theorem toUpper_idem (c : Char) : c.toUpper.toUpper = c.toUpper := by
  apply char_toNat_inj
  rw [toUpper_toNat c.toUpper, toUpper_toNat c]
  split_ifs <;> omega

/-- Upper-casing does not change whether a character is whitespace. -/
theorem isSpaceCh_toUpper (c : Char) : isSpaceCh c.toUpper = isSpaceCh c := by
  unfold isSpaceCh
  rw [decide_eq_decide, toUpper_toNat]
  split_ifs with h <;> omega

/-- A non-whitespace character is not a space. -/
theorem ne_space_of_not_isSpaceCh {c : Char} (h : isSpaceCh c = false) :
    c ≠ ' ' := by
  intro hc
  subst hc
  simp [isSpaceCh] at h

/-- `salesCharMap` never yields a space. -/
theorem salesCharMap_ne_space (c : Char) : salesCharMap c ≠ ' ' := by
  unfold salesCharMap replaceSpaceCh
  split_ifs with h
  · decide
  · exact h

/-- `salesCharMap` is idempotent. -/
theorem salesCharMap_idem (c : Char) : salesCharMap (salesCharMap c) = salesCharMap c := by
  by_cases h : Char.toUpper c = ' '
  · rw [show salesCharMap c = '_' by simp [salesCharMap, replaceSpaceCh, h]]
    decide
  · have h1 : salesCharMap c = Char.toUpper c := by simp [salesCharMap, replaceSpaceCh, h]
    rw [h1]
    simp [salesCharMap, replaceSpaceCh, toUpper_idem, h]

/-- Upper-casing a `salesCharMap` output is a no-op. -/
theorem toUpper_salesCharMap (c : Char) :
    Char.toUpper (salesCharMap c) = salesCharMap c := by
  unfold salesCharMap replaceSpaceCh
  split_ifs with h
  · decide
  · exact toUpper_idem c

/-- `salesCharMap` maps non-whitespace to non-whitespace. -/
theorem isSpaceCh_salesCharMap {c : Char} (h : isSpaceCh c = false) :
    isSpaceCh (salesCharMap c) = false := by
  unfold salesCharMap replaceSpaceCh
  split_ifs with hs
  · decide
  · rw [isSpaceCh_toUpper]
    exact h

/-- Unfolding equation for `dropTrail` on a cons cell. -/
theorem dropTrail_cons (c : Char) (t : List Char) :
    dropTrail (c :: t) =
      if (dropTrail t).isEmpty && isSpaceCh c then [] else c :: dropTrail t := rfl

/-- `dropTrail` keeps the head of the list (or empties it). -/
theorem head?_dropTrail (m : List Char) :
    dropTrail m = [] ∨ (dropTrail m).head? = m.head? := by
  cases m with
  | nil => exact Or.inl rfl
  | cons c t =>
    rw [dropTrail_cons]
    by_cases hb : ((dropTrail t).isEmpty && isSpaceCh c) = true
    · rw [if_pos hb]
      exact Or.inl rfl
    · rw [if_neg hb]
      exact Or.inr rfl

/-- The head of `dropWhile isSpaceCh` is not whitespace. -/
theorem head_dropWhile_not_space (l : List Char) :
    ∀ c ∈ (l.dropWhile isSpaceCh).head?, isSpaceCh c = false := by
  induction l with
  | nil => intro c hc; simp at hc
  | cons a t ih =>
    intro c hc
    rw [List.dropWhile_cons] at hc
    by_cases ha : isSpaceCh a = true
    · rw [if_pos ha] at hc
      exact ih c hc
    · rw [if_neg ha] at hc
      simp only [List.head?_cons, Option.mem_def, Option.some.injEq] at hc
      subst hc
      exact Bool.not_eq_true _ ▸ ha

/-- A list whose head is not whitespace is unchanged by the leading strip. -/
theorem dropWhile_eq_self_of_head (l : List Char)
    (h : ∀ c ∈ l.head?, isSpaceCh c = false) :
    l.dropWhile isSpaceCh = l := by
  cases l with
  | nil => rfl
  | cons a t =>
    rw [List.dropWhile_cons, if_neg]
    rw [h a (by simp)]
    exact Bool.false_ne_true

/-- Mapping a whitespace-preserving function over a trailing-stripped list
leaves nothing to strip at the tail. -/
theorem dropTrail_map_stable (f : Char → Char)
    (hf : ∀ c, isSpaceCh c = false → isSpaceCh (f c) = false) (m : List Char) :
    dropTrail (List.map f (dropTrail m)) = List.map f (dropTrail m) := by
  induction m with
  | nil => rfl
  | cons c t ih =>
    rw [dropTrail_cons]
    by_cases hb : ((dropTrail t).isEmpty && isSpaceCh c) = true
    · rw [if_pos hb]
      rfl
    · rw [if_neg hb]
      rw [List.map_cons, dropTrail_cons, ih]
      cases hdt : dropTrail t with
      | nil =>
        have hc : isSpaceCh c = false := by
          rw [hdt] at hb
          simpa using hb
        simp [hf c hc]
      | cons x xs =>
        simp

/-- Mapping a whitespace-preserving function over a fully stripped list gives
a fully stripped list. -/
theorem trimChars_map_stable (f : Char → Char)
    (hf : ∀ c, isSpaceCh c = false → isSpaceCh (f c) = false) (l : List Char) :
    trimChars (List.map f (trimChars l)) = List.map f (trimChars l) := by
  unfold trimChars
  have h1 : List.dropWhile isSpaceCh (List.map f (dropTrail (l.dropWhile isSpaceCh))) =
      List.map f (dropTrail (l.dropWhile isSpaceCh)) := by
    apply dropWhile_eq_self_of_head
    intro c hc
    rw [List.head?_map] at hc
    rcases head?_dropTrail (l.dropWhile isSpaceCh) with h | h
    · rw [h] at hc
      simp at hc
    · rw [h] at hc
      cases hhd : (l.dropWhile isSpaceCh).head? with
      | none => rw [hhd] at hc; simp at hc
      | some a =>
        rw [hhd] at hc
        simp only [Option.map_some', Option.mem_def, Option.some.injEq] at hc
        subst hc
        exact hf a (head_dropWhile_not_space l a (by rw [hhd]; rfl))
  rw [h1]
  exact dropTrail_map_stable f hf _

/-- Claim C5 (counterexample): the SKU-table normalization upper-cases but
does NOT replace spaces (app.py:64 has no `.str.replace(' ', '_')`): the raw
SKU header "unit price" normalizes to "UNIT PRICE", which still contains a
space. -/
theorem C5_normalization_claim_false :
    normalizeSkuCol "unit price".data = "UNIT PRICE".data ∧
    ' ' ∈ normalizeSkuCol "unit price".data := by
  decide

/-- Claim C5 (amended): after normalization of a sales-table header the name
is upper-case with no spaces and re-normalizing changes nothing; after
normalization of a SKU-table header the name is upper-case and
re-normalizing changes nothing, but spaces are preserved (not replaced by
underscores). -/
theorem C5_normalization_amended (l : List Char) :
    (' ' ∉ normalizeSalesCol l) ∧
    (normalizeSalesCol l).map Char.toUpper = normalizeSalesCol l ∧
    normalizeSalesCol (normalizeSalesCol l) = normalizeSalesCol l ∧
    (normalizeSkuCol l).map Char.toUpper = normalizeSkuCol l ∧
    normalizeSkuCol (normalizeSkuCol l) = normalizeSkuCol l := by
  have hfSales : ∀ c, isSpaceCh c = false → isSpaceCh (salesCharMap c) = false :=
    fun c h => isSpaceCh_salesCharMap h
  have hfUpper : ∀ c, isSpaceCh c = false → isSpaceCh (Char.toUpper c) = false :=
    fun c h => by rw [isSpaceCh_toUpper]; exact h
  refine ⟨?_, ?_, ?_, ?_, ?_⟩
  · intro hmem
    rcases List.mem_map.mp hmem with ⟨c, _, hc⟩
    exact salesCharMap_ne_space c hc
  · unfold normalizeSalesCol
    rw [List.map_map]
    exact List.map_congr_left (fun x _ => toUpper_salesCharMap x)
  · conv_lhs => rw [normalizeSalesCol]
    rw [show normalizeSalesCol l = List.map salesCharMap (trimChars l) from rfl,
      trimChars_map_stable salesCharMap hfSales l, List.map_map]
    exact List.map_congr_left (fun x _ => salesCharMap_idem x)
  · unfold normalizeSkuCol
    rw [List.map_map]
    exact List.map_congr_left (fun x _ => toUpper_idem x)
  · conv_lhs => rw [normalizeSkuCol]
    rw [show normalizeSkuCol l = List.map Char.toUpper (trimChars l) from rfl,
      trimChars_map_stable Char.toUpper hfUpper l, List.map_map]
    exact List.map_congr_left (fun x _ => toUpper_idem x)

/-- Witness for C5 (amended): the raw sales header " order date " normalizes
to "ORDER_DATE" — upper-case, stripped, space replaced — and contains no
space. -/
theorem C5_normalization_amended_witness :
    ' ' ∉ normalizeSalesCol " order date ".data ∧
    normalizeSalesCol " order date ".data = "ORDER_DATE".data :=
  ⟨(C5_normalization_amended " order date ".data).1, by decide⟩
